import Mathlib

/-!
Verification of the client-side data-fetching and state-update logic of the
Craftella storefront (React/TypeScript). Each definition below is a shallow
embedding of a function from the repository: JSON values and HTTP responses are
modelled explicitly, JavaScript numbers are modelled as rationals, absent
object fields as `Option`, caught exceptions as the error branch of a match,
and JavaScript truthiness by an explicit `jsTruthy` function.
-/

namespace Craftella

/-- A JSON value as delivered by the backend API. Numbers are modelled as
rationals. -/
inductive Json : Type where
  | null : Json
  | bool (b : Bool) : Json
  | num (q : ℚ) : Json
  | str (s : String) : Json
  | arr (xs : List Json) : Json
  | obj (fields : List (String × Json)) : Json

/-- Member access `v.k` in JavaScript: a field lookup on an object, and
`undefined` (modelled as `none`) on every other value. -/
def Json.getField : Json → String → Option Json
  | .obj fields, k => fields.lookup k
  | _, _ => none

/-- JavaScript truthiness of a JSON value; an absent field (`none` from
`getField`) is handled at the use sites as falsy. -/
def jsTruthy : Json → Bool
  | .null => false
  | .bool b => b
  | .num q => q != 0
  | .str s => s != ""
  | .arr _ => true
  | .obj _ => true

/-- Truthiness of a possibly-absent value: `undefined` is falsy. -/
def jsTruthyOpt : Option Json → Bool
  | none => false
  | some v => jsTruthy v

section HttpFacade

/-- An HTTP response as seen by the client: its status code and its body
parsed as JSON (`none` when the body is not valid JSON, in which case
`res.json()` rejects). -/
structure HttpResponse : Type where
  status : ℕ
  jsonBody : Option Json

/-- The error value surfaced by a failed client call: a message, and the HTTP
status when the error carries one. -/
structure ApiError : Type where
  message : String
  status : Option ℕ
  deriving DecidableEq, Repr

/-- Whether a status code is a success (2xx) status. -/
def is2xx (status : ℕ) : Bool := 200 ≤ status && status < 300

/-- The `api` facade of `src/lib/api.ts`: every method (`get`, `post`, `put`,
`patch`, `del`) is `fetch(url, opts).then(res => res.json())`. The response
status is never inspected; the call resolves with the parsed JSON body and
rejects only when the body is not valid JSON. -/
def apiRequest (resp : HttpResponse) : Except ApiError Json :=
  match resp.jsonBody with
  | some j => Except.ok j
  | none => Except.error { message := "Unexpected end of JSON input", status := none }

/-- The claim about the facade, stated as the spec states it: non-2xx responses
raise an error tagged with the HTTP status, 2xx responses return the parsed
JSON body. -/
def facadeClaim : Prop :=
  ∀ resp : HttpResponse,
    (is2xx resp.status = false →
      ∃ e : ApiError, apiRequest resp = Except.error e ∧ e.status = some resp.status) ∧
    (is2xx resp.status = true →
      ∀ j : Json, resp.jsonBody = some j → apiRequest resp = Except.ok j)

end HttpFacade

section Cart

/-- The cart payload of `GET /cart` as consumed by `fetchCart` in
`src/pages/customer/Cart.tsx`: the list of the items (only their `total`
fields matter to the totals computation) and the optional server-computed
`subtotal`, `tax` and `total` fields. -/
structure CartData : Type where
  itemTotals : List ℚ
  subtotal : Option ℚ
  tax : Option ℚ
  total : Option ℚ
  deriving DecidableEq, Repr

/-- The three totals held in cart state after `fetchCart` runs: each is
`none` exactly when the corresponding field is absent from the stored cart. -/
structure CartTotals : Type where
  subtotal : Option ℚ
  tax : Option ℚ
  total : Option ℚ
  deriving DecidableEq, Repr

/-- JavaScript truthiness of the optional `subtotal` field: the guard
`!cartData.subtotal` holds when the field is absent or equal to 0. -/
def subtotalTruthy (c : CartData) : Bool :=
  match c.subtotal with
  | none => false
  | some q => q != 0

/-- The fold `cartData.items.reduce((sum, item) => sum + item.total, 0)`. -/
def sumItemTotals (c : CartData) : ℚ :=
  c.itemTotals.foldl (· + ·) 0

/-- The totals stored by `fetchCart`: when `!cartData.subtotal`, it computes
`subtotal = Σ item.total`, `tax = subtotal * 0.08`, `total = subtotal + tax`
and spreads them over the cart; otherwise it stores the cart verbatim. -/
def fetchCartTotals (c : CartData) : CartTotals :=
  if subtotalTruthy c then
    { subtotal := c.subtotal, tax := c.tax, total := c.total }
  else
    let subtotal := sumItemTotals c
    let tax := subtotal * (8 / 100)
    { subtotal := some subtotal, tax := some tax, total := some (subtotal + tax) }

end Cart

section ListViews

/-- The default meta object inserted by `fetchProducts`:
`response.meta || \x7b current_page: 1, last_page: 1 \x7d`. -/
def defaultMeta : Json :=
  Json.obj [("current_page", Json.num 1), ("last_page", Json.num 1)]

/-- The expression `response.meta || \x7b current_page: 1, last_page: 1 \x7d`:
the `meta` field when it is present and truthy, the default object
otherwise. -/
def metaOf (resp : Json) : Json :=
  match resp.getField "meta" with
  | some m => if jsTruthy m then m else defaultMeta
  | none => defaultMeta

/-- The JavaScript comparison `a < b` on two possibly-absent JSON values, in
the fragment these pages exercise: numeric when both sides are numbers, and
false when either side is absent or not a number (in JavaScript such a
comparison coerces to NaN and yields false). -/
def jsLt : Option Json → Option Json → Bool
  | some (Json.num a), some (Json.num b) => decide (a < b)
  | _, _ => false

/-- The value stored by `setHasMore(meta.current_page < meta.last_page)` in
`fetchProducts` (`src/pages/customer/Products.tsx`). -/
def hasMoreOf (resp : Json) : Bool :=
  jsLt ((metaOf resp).getField "current_page") ((metaOf resp).getField "last_page")

/-- The guard of the infinite-scroll effect in `Products.tsx`:
`if (!hasMore || loading) return;` — an observer that can issue the next page
request is installed only when this returns true. -/
def scrollFetchEnabled (hasMore loading : Bool) : Bool :=
  hasMore && !loading

/-- The expression `Array.isArray(response) ? response : response.data || []`
in `fetchProducts`: the value bound to `data` and passed to `setProducts`. -/
def productsDataOf (resp : Json) : Json :=
  match resp with
  | Json.arr xs => Json.arr xs
  | _ =>
    match resp.getField "data" with
    | some d => if jsTruthy d then d else Json.arr []
    | none => Json.arr []

/-- The component state of the `Products` page that `fetchProducts` updates. -/
structure ProductsState : Type where
  products : Json
  hasMore : Bool
  loading : Bool

/-- The spread `[...prev, ...data]` appending one page of results to the
previous ones; the states reached by the page always hold arrays here
(spreading a non-array value would throw in JavaScript). -/
def jsConcatArr : Json → Json → Json
  | Json.arr xs, Json.arr ys => Json.arr (xs ++ ys)
  | a, _ => a

/-- The state update performed by one run of `fetchProducts(page)` given the
outcome of `api.get`: on success the product list is replaced (page 1) or
extended, and `hasMore` is recomputed from `meta`; on a caught failure page 1
falls back to an empty list and `hasMore` is left unchanged; in both cases the
`finally` block clears `loading`. -/
def fetchProductsUpdate (page : ℕ) (prev : ProductsState)
    (result : Except ApiError Json) : ProductsState :=
  match result with
  | Except.ok resp =>
    { products :=
        if page = 1 then productsDataOf resp
        else jsConcatArr prev.products (productsDataOf resp),
      hasMore := hasMoreOf resp,
      loading := false }
  | Except.error _ =>
    { products := if page = 1 then Json.arr [] else prev.products,
      hasMore := prev.hasMore,
      loading := false }

/-- Optional chaining `v?.k`: `undefined` when the receiver is absent or
null, an ordinary member access otherwise. -/
def optChainGet (v : Option Json) (k : String) : Option Json :=
  match v with
  | none => none
  | some Json.null => none
  | some j => j.getField k

/-- The JavaScript expression `v || dflt` where `v` may be absent. -/
def jsOrDefault (v : Option Json) (dflt : Json) : Json :=
  match v with
  | some j => if jsTruthy j then j else dflt
  | none => dflt

/-- The value bound by `const data = response.data || response` followed by
`Array.isArray(data) ? data : data.data || []` in `fetchUsers`
(admin users page): the value passed to `setUsers`. -/
def usersDataOf (resp : Json) : Json :=
  let data := jsOrDefault (resp.getField "data") resp
  match data with
  | Json.arr xs => Json.arr xs
  | _ => jsOrDefault (data.getField "data") (Json.arr [])

/-- The component state of the admin `Users` page that `fetchUsers` updates. -/
structure UsersState : Type where
  users : Json
  totalPages : Json
  currentPage : ℕ

/-- The state update performed by one run of `fetchUsers(page)` given the
outcome of `api.get`: on success `users`, `totalPages`
(`response.meta?.last_page || 1`) and `currentPage` are set; on a caught
failure the list falls back to empty and `totalPages` to 1. -/
def fetchUsersUpdate (page : ℕ) (prev : UsersState)
    (result : Except ApiError Json) : UsersState :=
  match result with
  | Except.ok resp =>
    { users := usersDataOf resp,
      totalPages := jsOrDefault (optChainGet (resp.getField "meta") "last_page") (Json.num 1),
      currentPage := page }
  | Except.error _ =>
    { users := Json.arr [],
      totalPages := Json.num 1,
      currentPage := prev.currentPage }

end ListViews

section Addresses

/-- An address record as held by the profile page; `is_default` is the flag
the local update rewrites, `id` the key it compares against. -/
structure Address : Type where
  id : ℕ
  street : String
  city : String
  state : String
  postal_code : String
  country : String
  is_default : Bool
  deriving DecidableEq, Repr

/-- The optimistic local update in `handleSetDefault`
(`src/pages/customer/Profile.tsx`):
`addresses.map(addr => (\x7b ...addr, is_default: addr.id === id \x7d))`. -/
def handleSetDefaultLocal (addresses : List Address) (id : ℕ) : List Address :=
  addresses.map (fun addr => { addr with is_default := addr.id == id })

end Addresses

section BulkDelete

/-- The outcome message set after a bulk delete: the single success toast, or
the single generic failure message set in the catch block. -/
inductive BulkMsg : Type where
  | success : BulkMsg
  | genericFailure : BulkMsg
  deriving DecidableEq, Repr

/-- The observable outcome of a bulk delete run: the per-id requests issued in
order, the resulting remote store, and the one message shown. -/
structure BulkResult : Type where
  issued : List ℕ
  store : List ℕ
  msg : BulkMsg
  deriving DecidableEq, Repr

/-- The loop of `handleBulkDelete` (admin products and notifications pages):
`for (const id of selected) \x7b await api.del(...) \x7d` inside one
try/catch. Each id in turn gets its own delete request; a request that fails
(`fails id = true`) throws out of the loop into the catch block, which sets
the generic failure message — ids after it are never issued and nothing is
rolled back. A successful request removes the entity from the remote store. -/
def bulkDeleteRun (fails : ℕ → Bool) : List ℕ → List ℕ → BulkResult
  | store, [] => { issued := [], store := store, msg := BulkMsg.success }
  | store, id :: rest =>
    if fails id then
      { issued := [id], store := store, msg := BulkMsg.genericFailure }
    else
      let r := bulkDeleteRun fails (store.erase id) rest
      { issued := id :: r.issued, store := r.store, msg := r.msg }

end BulkDelete

section Filters

/-- The filter state of the `Products` page (`FilterOptions` in
`Products.tsx`). -/
structure FilterOptions : Type where
  category : String
  minPrice : String
  maxPrice : String
  featuredOnly : Bool
  sortBy : String
  deriving DecidableEq, Repr

/-- A URL query string, as the ordered key/value pairs held by
`URLSearchParams`. -/
def UrlParams : Type := List (String × String)

/-- The expression `searchParams.get(k) || dflt`: `URLSearchParams.get`
returns the value when the key is present (null otherwise), and `||` replaces
a falsy result — null or the empty string — with the default. -/
def strOrDefault (v : Option String) (dflt : String) : String :=
  match v with
  | some s => if s != "" then s else dflt
  | none => dflt

/-- The `initialFilters` computation of `Products.tsx`: each field read from
the URL query parameters, with its default when absent. -/
def initialFilters (params : UrlParams) : FilterOptions :=
  { category := strOrDefault (params.lookup "category") "",
    minPrice := strOrDefault (params.lookup "minPrice") "",
    maxPrice := strOrDefault (params.lookup "maxPrice") "",
    featuredOnly := params.lookup "featuredOnly" == some "true",
    sortBy := strOrDefault (params.lookup "sortBy") "created_at_desc" }

/-- The URL serialization in `applyFilters` (`Products.tsx`): each filter is
written to the query string only when it is truthy (nonempty / true), and
`sortBy` only when it differs from its default. -/
def applyFiltersParams (f : FilterOptions) : UrlParams :=
  (if f.category != "" then [("category", f.category)] else []) ++
  (if f.minPrice != "" then [("minPrice", f.minPrice)] else []) ++
  (if f.maxPrice != "" then [("maxPrice", f.maxPrice)] else []) ++
  (if f.featuredOnly then [("featuredOnly", "true")] else []) ++
  (if f.sortBy != "created_at_desc" then [("sortBy", f.sortBy)] else [])

end Filters

section Debounce

/-- The state of the debounce effect of `Products.tsx` between events: the
deadline of the pending `setTimeout`, if one is scheduled, and how many
scheduled callbacks have already run. -/
structure DebounceState : Type where
  pending : Option ℕ
  fired : ℕ
  deriving DecidableEq, Repr

/-- One filter field edit at time `t`: the effect re-runs, its cleanup
(`clearTimeout`) cancels the previously scheduled callback unless its deadline
`d` already passed (`d ≤ t`, in which case it fired), and a new callback is
scheduled `delay` ms out. -/
def debounceStep (delay : ℕ) (s : DebounceState) (t : ℕ) : DebounceState :=
  match s.pending with
  | none => { pending := some (t + delay), fired := s.fired }
  | some d =>
    if d ≤ t then { pending := some (t + delay), fired := s.fired + 1 }
    else { pending := some (t + delay), fired := s.fired }

/-- The number of times the debounced callback (which calls `applyFilters`
and so re-fetches, when the loading flag is clear) runs, for a nondecreasing
sequence of edit times: the timer left pending after the last edit fires once
the component outlives its deadline. -/
def debounceFired (delay : ℕ) (edits : List ℕ) : ℕ :=
  let final := edits.foldl (debounceStep delay) { pending := none, fired := 0 }
  match final.pending with
  | some _ => final.fired + 1
  | none => final.fired

end Debounce

/-- C1: when the server omits the cart subtotal, `fetchCart` computes
`subtotal = Σ item.total`, `tax = subtotal * 0.08` and
`total = subtotal + tax` and stores those three values. -/
theorem cart_fallback_totals (c : CartData) (h : c.subtotal = none) :
    fetchCartTotals c =
      { subtotal := some (sumItemTotals c),
        tax := some (sumItemTotals c * (8 / 100)),
        total := some (sumItemTotals c + sumItemTotals c * (8 / 100)) } := by
  simp [fetchCartTotals, subtotalTruthy, h]

/-- C1 witness: for item totals [10.00, 20.00] and no server subtotal, the
computed subtotal is 30.00, tax 2.40 and total 32.40. -/
theorem cart_fallback_totals_witness :
    fetchCartTotals { itemTotals := [10, 20], subtotal := none, tax := none, total := none } =
      { subtotal := some 30, tax := some (240 / 100), total := some (3240 / 100) } := by
  rw [cart_fallback_totals _ rfl]
  norm_num [sumItemTotals]

/-- C10: `fetchCart` guards the fallback with JavaScript truthiness
(`!cartData.subtotal`): a server-supplied subtotal of 0 is treated as absent
and all three totals are recomputed with the 8 percent formula, while any
nonzero subtotal makes the server totals be stored verbatim. -/
theorem cart_zero_subtotal_recomputed (c : CartData) :
    (c.subtotal = some 0 →
      fetchCartTotals c =
        { subtotal := some (sumItemTotals c),
          tax := some (sumItemTotals c * (8 / 100)),
          total := some (sumItemTotals c + sumItemTotals c * (8 / 100)) }) ∧
    (∀ q : ℚ, c.subtotal = some q → q ≠ 0 →
      fetchCartTotals c = { subtotal := c.subtotal, tax := c.tax, total := c.total }) := by
  constructor
  · intro h
    simp [fetchCartTotals, subtotalTruthy, h]
  · intro q h hq
    simp [fetchCartTotals, subtotalTruthy, h, hq]

/-- C10 witness: a cart with one item of total 5 and a server subtotal of 0
gets all totals recomputed, while the same cart with server subtotal 7 keeps
the server values verbatim. -/
theorem cart_zero_subtotal_recomputed_witness :
    fetchCartTotals { itemTotals := [5], subtotal := some 0, tax := some 1, total := some 2 } =
      { subtotal := some 5, tax := some (2 / 5), total := some (27 / 5) } ∧
    fetchCartTotals { itemTotals := [5], subtotal := some 7, tax := some 1, total := some 2 } =
      { subtotal := some 7, tax := some 1, total := some 2 } := by
  constructor
  · rw [(cart_zero_subtotal_recomputed _).1 rfl]
    norm_num [sumItemTotals]
  · exact (cart_zero_subtotal_recomputed _).2 7 rfl (by norm_num)

/-- C2 counterexample: the facade never inspects the response status, so a
404 response with a valid JSON body resolves with that body instead of
raising an error tagged with the status; the claimed contract is false. -/
theorem api_facade_claim_false : ¬ facadeClaim := by
  intro h
  obtain ⟨e, he, _⟩ :=
    (h { status := 404,
         jsonBody := some (Json.obj [("message", Json.str "Not Found")]) }).1 (by decide)
  simp [apiRequest] at he

/-- C2 amended: every facade method resolves with the parsed JSON body
whenever the body is valid JSON, regardless of the HTTP status; it raises
only when the body cannot be parsed, and that error carries no HTTP status. -/
theorem apiRequest_returns_parsed_body (resp : HttpResponse) :
    (∀ j : Json, apiRequest resp = Except.ok j ↔ resp.jsonBody = some j) ∧
    (resp.jsonBody = none →
      apiRequest resp =
        Except.error { message := "Unexpected end of JSON input", status := none }) := by
  constructor
  · intro j
    cases hb : resp.jsonBody <;> simp [apiRequest, hb]
  · intro h
    simp [apiRequest, h]

/-- C2 amended witness: a 500 response with body 3 resolves with 3, and a 200
response with an unparseable body raises the untagged parse error. -/
theorem apiRequest_returns_parsed_body_witness :
    apiRequest { status := 500, jsonBody := some (Json.num 3) } = Except.ok (Json.num 3) ∧
    apiRequest { status := 200, jsonBody := none } =
      Except.error { message := "Unexpected end of JSON input", status := none } := by
  constructor
  · exact ((apiRequest_returns_parsed_body _).1 _).mpr rfl
  · exact (apiRequest_returns_parsed_body _).2 rfl

/-- C9: a failed read-path fetch is caught at the request site and converted
into local state: on page 1 the products list and the admin users list fall
back to an empty collection, loading is cleared, and the update functions are
total, so nothing propagates out of the fetch. -/
theorem fetch_failure_empty_fallback (e : ApiError) (prevP : ProductsState)
    (prevU : UsersState) (page : ℕ) :
    fetchProductsUpdate 1 prevP (Except.error e)
      = { products := Json.arr [], hasMore := prevP.hasMore, loading := false } ∧
    fetchUsersUpdate page prevU (Except.error e)
      = { users := Json.arr [], totalPages := Json.num 1,
          currentPage := prevU.currentPage } := by
  constructor <;> rfl

/-- C3: the "has more" flag stored by `fetchProducts` is true exactly when
`meta.current_page` is strictly less than `meta.last_page`; when they are
equal the stored flag is false, and the infinite-scroll effect returns before
installing its observer whenever the flag is false, so no further page
request is issued. -/
theorem hasMore_iff_current_lt_last (resp : Json) (c l : ℚ)
    (hc : (metaOf resp).getField "current_page" = some (Json.num c))
    (hl : (metaOf resp).getField "last_page" = some (Json.num l)) :
    (hasMoreOf resp = true ↔ c < l) ∧
    (c = l → ∀ (page : ℕ) (prev : ProductsState),
      (fetchProductsUpdate page prev (Except.ok resp)).hasMore = false) ∧
    (hasMoreOf resp = false →
      ∀ loading : Bool, scrollFetchEnabled (hasMoreOf resp) loading = false) := by
  have hb : hasMoreOf resp = decide (c < l) := by
    unfold hasMoreOf
    rw [hc, hl]
    rfl
  refine ⟨?_, ?_, ?_⟩
  · rw [hb]
    exact decide_eq_true_iff
  · intro h page prev
    show hasMoreOf resp = false
    rw [hb, h]
    simp
  · intro h loading
    rw [h]
    rfl

/-- C3 witness: a response whose meta reports page 3 of 3 stores a false
"has more" flag. -/
theorem hasMore_iff_current_lt_last_witness :
    (fetchProductsUpdate 1 { products := Json.arr [], hasMore := true, loading := true }
      (Except.ok (Json.obj [("data", Json.arr []),
        ("meta", Json.obj [("current_page", Json.num 3),
          ("last_page", Json.num 3)])]))).hasMore = false :=
  (hasMore_iff_current_lt_last
    (Json.obj [("data", Json.arr []),
      ("meta", Json.obj [("current_page", Json.num 3), ("last_page", Json.num 3)])])
    3 3 rfl rfl).2.1 rfl 1 { products := Json.arr [], hasMore := true, loading := true }

/-- C4: a bare array response and the equivalent enveloped response holding
the same items produce identical resulting state, both on the products page
and on the admin users page, for every page number and previous state. -/
theorem bare_and_enveloped_equal_state (xs : List Json) (page : ℕ)
    (prevP : ProductsState) (prevU : UsersState) :
    fetchProductsUpdate page prevP (Except.ok (Json.arr xs)) =
      fetchProductsUpdate page prevP (Except.ok (Json.obj [("data", Json.arr xs)])) ∧
    fetchUsersUpdate page prevU (Except.ok (Json.arr xs)) =
      fetchUsersUpdate page prevU (Except.ok (Json.obj [("data", Json.arr xs)])) := by
  constructor
  · simp [fetchProductsUpdate, productsDataOf, hasMoreOf, metaOf, Json.getField,
      List.lookup, jsTruthy]
  · simp [fetchUsersUpdate, usersDataOf, jsOrDefault, optChainGet, Json.getField,
      List.lookup, jsTruthy]

/-- Helper for C5: after the local set-default update, the ids of the
addresses flagged as default are exactly the occurrences of the requested id
in the original list. -/
theorem setDefault_defaults_eq_filter (l : List Address) (id : ℕ) :
    ((handleSetDefaultLocal l id).filter (fun a => a.is_default)).map Address.id
      = (l.map Address.id).filter (fun i => i == id) := by
  induction l with
  | nil => rfl
  | cons a t ih =>
    simp only [handleSetDefaultLocal, List.map_cons, List.filter_cons] at ih ⊢
    cases hb : a.id == id <;> simp [hb, ih, handleSetDefaultLocal]

/-- Helper for C5: filtering a duplicate-free list for one of its members
yields that member exactly once. -/
theorem filter_beq_self_of_nodup (l : List ℕ) (id : ℕ)
    (hmem : id ∈ l) (hnodup : l.Nodup) :
    l.filter (fun i => i == id) = [id] := by
  induction l with
  | nil => cases hmem
  | cons x t ih =>
    obtain ⟨hx, ht⟩ := List.nodup_cons.mp hnodup
    rcases List.mem_cons.mp hmem with h | h
    · subst h
      have hempty : t.filter (fun i => i == id) = [] := by
        refine List.filter_eq_nil_iff.mpr ?_
        intro a ha hai
        exact hx (beq_iff_eq.mp hai ▸ ha)
      simp [List.filter_cons, hempty]
    · have hxid : (x == id) = false := by
        refine beq_eq_false_iff_ne.mpr ?_
        intro e
        exact hx (e ▸ h)
      simp [List.filter_cons, hxid, ih h ht]

/-- C5: for an address list with duplicate-free ids and an id present in it,
applying the local "set default" update once or twice yields a list in which
exactly one address is flagged default, namely the one with that id; the
update is idempotent. -/
theorem setDefault_idempotent_unique (l : List Address) (id : ℕ)
    (hmem : id ∈ l.map Address.id) (hnodup : (l.map Address.id).Nodup) :
    handleSetDefaultLocal (handleSetDefaultLocal l id) id = handleSetDefaultLocal l id ∧
    ((handleSetDefaultLocal l id).filter (fun a => a.is_default)).map Address.id = [id] ∧
    ((handleSetDefaultLocal (handleSetDefaultLocal l id) id).filter
      (fun a => a.is_default)).map Address.id = [id] := by
  have hidem :
      handleSetDefaultLocal (handleSetDefaultLocal l id) id = handleSetDefaultLocal l id := by
    induction l with
    | nil => rfl
    | cons a t ih =>
      simp only [handleSetDefaultLocal, List.map_cons, List.map_map] at ih ⊢
      simp [ih]
  have honce :
      ((handleSetDefaultLocal l id).filter (fun a => a.is_default)).map Address.id = [id] := by
    rw [setDefault_defaults_eq_filter]
    exact filter_beq_self_of_nodup _ _ hmem hnodup
  exact ⟨hidem, honce, by rw [hidem]; exact honce⟩

/-- C5 witness: on a two-address list, setting address 2 as default leaves
exactly address 2 flagged. -/
theorem setDefault_idempotent_unique_witness :
    ((handleSetDefaultLocal
      [{ id := 1, street := "a", city := "b", state := "c", postal_code := "d",
         country := "e", is_default := true },
       { id := 2, street := "f", city := "g", state := "h", postal_code := "i",
         country := "j", is_default := false }] 2).filter
      (fun a => a.is_default)).map Address.id = [2] :=
  (setDefault_idempotent_unique
    [{ id := 1, street := "a", city := "b", state := "c", postal_code := "d",
       country := "e", is_default := true },
     { id := 2, street := "f", city := "g", state := "h", postal_code := "i",
       country := "j", is_default := false }] 2 (by decide) (by decide)).2.1

/-- Helper for C6: running the loop over a prefix of non-failing ids followed
by a failing id issues exactly the prefix requests plus the failing one,
applies the prefix deletions to the store, and ends in the generic failure
message, whatever follows the failing id. -/
theorem bulkDeleteRun_prefix (fails : ℕ → Bool) (pre : List ℕ) (bad : ℕ)
    (post : List ℕ) (hpre : ∀ x ∈ pre, fails x = false) (hbad : fails bad = true) :
    ∀ store : List ℕ,
      bulkDeleteRun fails store (pre ++ bad :: post)
        = { issued := pre ++ [bad],
            store := pre.foldl (fun s i => s.erase i) store,
            msg := BulkMsg.genericFailure } := by
  induction pre with
  | nil =>
    intro store
    simp [bulkDeleteRun, hbad]
  | cons p t ih =>
    intro store
    have hp : fails p = false := hpre p (List.mem_cons_self p t)
    have ht : ∀ x ∈ t, fails x = false := fun x hx => hpre x (List.mem_cons_of_mem p hx)
    simp [bulkDeleteRun, hp, ih ht (store.erase p)]

/-- Helper for C6: an element of the store that is not among the deleted ids
survives the sequence of erasures. -/
theorem mem_foldl_erase (ds : List ℕ) (l : List ℕ) (x : ℕ)
    (hx : x ∈ l) (hnd : x ∉ ds) :
    x ∈ ds.foldl (fun s i => s.erase i) l := by
  induction ds generalizing l with
  | nil => exact hx
  | cons d t ih =>
    simp only [List.foldl_cons]
    have hxd : x ≠ d := fun e => hnd (e ▸ List.mem_cons_self d t)
    have hxt : x ∉ t := fun h => hnd (List.mem_cons_of_mem d h)
    exact ih (l.erase d) ((List.mem_erase_of_ne hxd).mpr hx) hxt

/-- C6: bulk delete issues its per-id requests strictly sequentially in
selection order; when the request after a prefix of successes fails, exactly
that prefix has been deleted from the remote store, the ids not yet reached
are never issued and survive in the store (no rollback), and the loop ends
with the single generic failure message instead of crashing. -/
theorem bulkDelete_partial_failure (fails : ℕ → Bool) (store pre post : List ℕ)
    (bad : ℕ) (hpre : ∀ x ∈ pre, fails x = false) (hbad : fails bad = true) :
    (bulkDeleteRun fails store (pre ++ bad :: post)).issued = pre ++ [bad] ∧
    (bulkDeleteRun fails store (pre ++ bad :: post)).store
      = pre.foldl (fun s i => s.erase i) store ∧
    (bulkDeleteRun fails store (pre ++ bad :: post)).msg = BulkMsg.genericFailure ∧
    ∀ x ∈ store, x ∉ pre → x ∈ (bulkDeleteRun fails store (pre ++ bad :: post)).store := by
  have key := bulkDeleteRun_prefix fails pre bad post hpre hbad store
  refine ⟨?_, ?_, ?_, ?_⟩
  · rw [key]
  · rw [key]
  · rw [key]
  · intro x hx hnp
    rw [key]
    exact mem_foldl_erase pre store x hx hnp

/-- C6 witness: deleting selection [1, 2, 3, 4, 5] from store [1, 2, 3, 4, 5]
when the request for id 3 fails issues requests 1, 2, 3 only, leaves 3, 4, 5
in the store, and reports the generic failure. -/
theorem bulkDelete_partial_failure_witness :
    (bulkDeleteRun (fun n => n == 3) [1, 2, 3, 4, 5] [1, 2, 3, 4, 5]).issued
      = [1, 2, 3] ∧
    (bulkDeleteRun (fun n => n == 3) [1, 2, 3, 4, 5] [1, 2, 3, 4, 5]).store
      = [3, 4, 5] ∧
    (bulkDeleteRun (fun n => n == 3) [1, 2, 3, 4, 5] [1, 2, 3, 4, 5]).msg
      = BulkMsg.genericFailure := by
  have h := bulkDelete_partial_failure (fun n => n == 3) [1, 2, 3, 4, 5]
    [1, 2] [4, 5] 3 (by decide) (by decide)
  exact ⟨h.1, h.2.1, h.2.2.1⟩

/-- C7 counterexample: the filter state whose sortBy is the empty string is
not restored by the round trip — serialization writes sortBy (it differs from
the default), but reading it back replaces the falsy empty string with the
default — so the round trip does not hold for every filter state. -/
theorem filter_roundtrip_fails_on_empty_sortBy :
    initialFilters (applyFiltersParams
      { category := "", minPrice := "", maxPrice := "", featuredOnly := false,
        sortBy := "" })
      ≠ { category := "", minPrice := "", maxPrice := "", featuredOnly := false,
          sortBy := "" } := by
  decide

/-- C7 amended: for every filter state whose sortBy is nonempty — which
includes every state reachable through the page, since the sort select only
offers nonempty values — serializing the applied filters to the URL query
string and reading the initial filter state back restores the identical
state. -/
theorem filter_roundtrip (f : FilterOptions) (h : f.sortBy ≠ "") :
    initialFilters (applyFiltersParams f) = f := by
  obtain ⟨c, mn, mx, fo, sb⟩ := f
  simp only at h
  by_cases h1 : c = "" <;> by_cases h2 : mn = "" <;> by_cases h3 : mx = "" <;>
    cases fo <;> by_cases h5 : sb = "created_at_desc" <;>
      simp_all [initialFilters, applyFiltersParams, strOrDefault, List.lookup]

/-- C7 amended witness: the spec's example filters (category souvenir,
featured only) survive the round trip. -/
theorem filter_roundtrip_witness :
    initialFilters (applyFiltersParams
      { category := "souvenir", minPrice := "", maxPrice := "", featuredOnly := true,
        sortBy := "created_at_desc" })
      = { category := "souvenir", minPrice := "", maxPrice := "", featuredOnly := true,
          sortBy := "created_at_desc" } :=
  filter_roundtrip _ (by decide)

/-- C8: three filter edits, each within 300 ms of the previous one, make the
debounced callback run exactly once — each edit's effect cleanup cancels the
still-pending timer, and only the timer set by the last edit fires. -/
theorem debounce_three_edits_one_fetch (t1 t2 t3 : ℕ)
    (h1 : t1 ≤ t2) (h2 : t2 ≤ t3) (h12 : t2 < t1 + 300) (h23 : t3 < t2 + 300) :
    debounceFired 300 [t1, t2, t3] = 1 := by
  have e1 : ¬ (t1 + 300 ≤ t2) := by omega
  have e2 : ¬ (t2 + 300 ≤ t3) := by omega
  simp [debounceFired, debounceStep, e1, e2]

/-- C8 witness: edits at 0, 100 and 200 ms fire exactly one re-fetch. -/
theorem debounce_three_edits_one_fetch_witness :
    debounceFired 300 [0, 100, 200] = 1 :=
  debounce_three_edits_one_fetch 0 100 200 (by decide) (by decide) (by decide) (by decide)

end Craftella
